import Mathlib

/-!
Verification of the Qisclick provisioning script (src/Qisclick.py).

The script is a linear sequence of external-process invocations. We embed it
shallowly: the outcome of each external action (child exit code, missing
executable, other exception) is supplied by an oracle, console output is
modelled as an event trace, and `sys.exit(1)` is modelled by the sequencer
returning exit code 1 immediately with the trace accumulated so far.
-/

namespace Qisclick

/-- Outcome of one attempted external-process invocation, as the runtime
reports it to the caller: the child ran to completion with an exit code and
its two captured streams, the executable could not be located
(FileNotFoundError), or some other exception was thrown by the invocation. -/
inductive ProcResult where
  | exited (code : Int) (out err : String)
  | notFound
  | raised (msg : String)
deriving DecidableEq, Repr

/-- The exceptions the subprocess invocation inside `run_command` can
surface: CalledProcessError, FileNotFoundError, or anything else. -/
inductive RunExc where
  | calledProcessError (code : Int) (out err : String)
  | fileNotFound
  | unexpected (msg : String)
deriving DecidableEq, Repr

/-- Embedding of the subprocess invocation in `run_command`
(src/Qisclick.py lines 25-33): when `check` is set, a completed child with a
non-zero exit code becomes a CalledProcessError; a missing executable is a
FileNotFoundError; any other exception is passed through unchanged. -/
def subprocessRun (check : Bool) (res : ProcResult) :
    Except RunExc (Int × String × String) :=
  match res with
  | .exited code out err =>
      if check && code != 0 then Except.error (RunExc.calledProcessError code out err)
      else Except.ok (code, out, err)
  | .notFound => Except.error RunExc.fileNotFound
  | .raised m => Except.error (RunExc.unexpected m)

/-- Console lines printed by `run_command` itself. -/
inductive Msg where
  | stdoutEcho (s : String)
  | stderrEcho (s : String)
  | errorExecuting (cmd : List String)
  | errorDetails (code : Int)
  | commandNotFound
  | unexpectedError (s : String)
deriving DecidableEq, Repr

/-- Echo of the two captured streams (lines 34-38 and 42-45): each stream is
printed only when capture was requested and its text is non-empty. -/
def echoMsgs (capture_output : Bool) (out err : String) : List Msg :=
  (if capture_output && out != "" then [Msg.stdoutEcho out] else [])
    ++ (if capture_output && err != "" then [Msg.stderrEcho err] else [])

/-- Embedding of `run_command` (lines 12-53): the subprocess invocation runs
inside a try block; success returns True after echoing captured output, and
each of the three except clauses prints a diagnostic and returns False.
Result: the returned boolean and the lines printed. The `cwd` and `shell`
arguments of the source are forwarded verbatim to the child invocation and
play no part in the success computation, so they are not modelled. -/
def run_command (command : List String) (check capture_output : Bool)
    (res : ProcResult) : Bool × List Msg :=
  match subprocessRun check res with
  | Except.ok (_, out, err) => (true, echoMsgs capture_output out err)
  | Except.error (RunExc.calledProcessError code out err) =>
      (false, Msg.errorExecuting command ::
        (echoMsgs capture_output out err ++ [Msg.errorDetails code]))
  | Except.error RunExc.fileNotFound => (false, [Msg.commandNotFound])
  | Except.error (RunExc.unexpected m) => (false, [Msg.unexpectedError m])

/-- Success of a `check=True` invocation as `run_command` reports it:
the child completed with exit code 0. -/
def procOk (res : ProcResult) : Bool :=
  match res with
  | .exited code _ _ => code == 0
  | _ => false

/-- A `check=False` invocation (the cache purge at line 88, and the bare
interactive launch at line 199) raises only when the invocation itself
fails; the exit status of a completed child is ignored. -/
def launchNoExc (res : ProcResult) : Bool :=
  match res with
  | .exited _ _ _ => true
  | _ => false

/-- A filesystem path as the list of components that os.path.join glues
together with the host separator. -/
abbrev FsPath := List String

/-- Rendering of a component path with the host path separator. -/
def ospJoin (sep : String) (p : FsPath) : String := String.intercalate sep p

/-- The virtual-environment directory (line 10): the script directory plus
the fixed name qisclick_env. -/
def venv_dir (scriptDir : FsPath) : FsPath := scriptDir ++ ["qisclick_env"]

/-- The pip executable inside the new environment (lines 104-109). -/
def pip_path (scriptDir : FsPath) (isWindows : Bool) : FsPath :=
  if isWindows then venv_dir scriptDir ++ ["Scripts", "pip.exe"]
  else venv_dir scriptDir ++ ["bin", "pip"]

/-- The python executable inside the new environment (lines 104-109). -/
def python_path (scriptDir : FsPath) (isWindows : Bool) : FsPath :=
  if isWindows then venv_dir scriptDir ++ ["Scripts", "python.exe"]
  else venv_dir scriptDir ++ ["bin", "python"]

/-- The activation script printed by the post-run guidance (lines 206-209). -/
def activate_path (scriptDir : FsPath) (isWindows : Bool) : FsPath :=
  if isWindows then venv_dir scriptDir ++ ["Scripts", "activate.bat"]
  else venv_dir scriptDir ++ ["bin", "activate"]

/-- The fixed package list (lines 121-126). -/
def packages_to_install : List String :=
  ["qiskit", "qiskit-aer", "qiskit-ibm-runtime", "qiskit-terra"]

/-- The install command for one package (line 131): the environment pip, the
install subcommand, and the bare package name with no version pin. -/
def installCmd (pipExe pkg : String) : List String := [pipExe, "install", pkg]

/-- The embedded smoke-test program (lines 140-180). Its contents are an
opaque text blob executed by the provisioned interpreter; its domain logic
is out of scope, only the exit status of running it matters here. -/
def qiskit_test_script : String := "qiskit smoke test program"

/-- Console and action events of `main`, in program order. `invoked cmd`
marks the start of one external-process invocation; `runner m` wraps a line
printed by `run_command`; `creatingEnv b` records whether the environment
directory exists at the moment creation is invoked. -/
inductive Event where
  | removingOld
  | removedOld
  | removeErrorMsg
  | skipRemovalMsg
  | purgeAttemptMsg
  | pipMissingWarn
  | purgeFailWarn
  | purgeSuccessMsg
  | creatingEnv (dirExists : Bool)
  | createFailedMsg
  | createdMsg
  | upgradingPipMsg
  | upgradeFailedMsg
  | upgradedMsg
  | installingPkg (pkg : String)
  | installFailedMsg (pkg : String)
  | installedMsg (pkg : String)
  | allInstalledMsg
  | runningTestMsg
  | testFailedMsg
  | testOkMsg
  | launchingMsg
  | launchFailedMsg
  | exitedMsg
  | activateHint (p : FsPath)
  | invoked (cmd : List String)
  | runner (m : Msg)
deriving DecidableEq, Repr

/-- The oracle for everything outside the script that the steps after
teardown consult: platform data and the outcome of each external action. -/
structure Env where
  sysExecutable : String
  sep : String
  scriptDir : FsPath
  isWindows : Bool
  systemPip : Option String
  cachePurge : ProcResult
  venvCreate : ProcResult
  pipUpgrade : ProcResult
  install : String → ProcResult
  testRun : ProcResult
  interactive : ProcResult

/-- One run's world: whether the environment directory exists at startup,
whether its removal raises OSError, and the oracle for the later steps. -/
structure World where
  venvExists : Bool
  rmtreeRaises : Bool
  env : Env

/-- Step 1 (lines 68-79): remove any existing environment directory.
Returns the events, `some code` when the step calls sys.exit, and whether
the directory still exists afterwards. -/
def teardownStep (venvExists rmtreeRaises : Bool) :
    List Event × Option Nat × Bool :=
  if venvExists then
    if rmtreeRaises then
      ([Event.removingOld, Event.removeErrorMsg], some 1, true)
    else ([Event.removingOld, Event.removedOld], none, false)
  else ([Event.skipRemovalMsg], none, false)

/-- Step 2 (lines 82-93): purge the system pip cache. The pip executable is
looked up on the search path; if found, the purge runs with `check=False`
and no capture; no path through this step calls sys.exit. -/
def purgeStep (systemPip : Option String) (cachePurge : ProcResult) :
    List Event :=
  Event.purgeAttemptMsg ::
    match systemPip with
    | some p =>
        let r := run_command [p, "cache", "purge"] false false cachePurge
        Event.invoked [p, "cache", "purge"] :: r.2.map Event.runner
          ++ (if r.1 then [Event.purgeSuccessMsg] else [Event.purgeFailWarn])
    | none => [Event.pipMissingWarn]

/-- Step 3 (lines 96-101): create the environment with the interpreter that
runs the script; `check=True`, output captured; failure is fatal. The
leading event records whether the directory exists at this moment. -/
def createStep (cmd : List String) (dirExists : Bool) (res : ProcResult) :
    List Event × Bool :=
  let r := run_command cmd true true res
  (Event.creatingEnv dirExists :: Event.invoked cmd :: r.2.map Event.runner
      ++ (if r.1 then [Event.createdMsg] else [Event.createFailedMsg]), r.1)

/-- Step 4 (lines 112-116): upgrade pip inside the new environment;
`check=True`, output captured; failure is fatal. -/
def upgradeStep (pipExe : String) (res : ProcResult) : List Event × Bool :=
  let cmd := [pipExe, "install", "--upgrade", "pip"]
  let r := run_command cmd true true res
  (Event.upgradingPipMsg :: Event.invoked cmd :: r.2.map Event.runner
      ++ (if r.1 then [Event.upgradedMsg] else [Event.upgradeFailedMsg]), r.1)

/-- Step 5 (lines 128-134): install each package in order, halting at the
first failure; each install uses `check=True` with output captured. -/
def installLoop (pipExe : String) (inst : String → ProcResult) :
    List String → List Event × Bool
  | [] => ([], true)
  | pkg :: rest =>
      let cmd := installCmd pipExe pkg
      let r := run_command cmd true true (inst pkg)
      let evs := Event.installingPkg pkg :: Event.invoked cmd :: r.2.map Event.runner
      if r.1 then
        let k := installLoop pipExe inst rest
        (evs ++ Event.installedMsg pkg :: k.1, k.2)
      else (evs ++ [Event.installFailedMsg pkg], false)

/-- Step 6 (lines 184-188): run the smoke test via the environment python
with `-c`; `check=True`, output not captured; failure is fatal. -/
def testStep (pyExe : String) (res : ProcResult) : List Event × Bool :=
  let cmd := [pyExe, "-c", qiskit_test_script]
  let r := run_command cmd true false res
  (Event.runningTestMsg :: Event.invoked cmd :: r.2.map Event.runner
      ++ (if r.1 then [Event.testOkMsg] else [Event.testFailedMsg]), r.1)

/-- Step 7 (lines 196-202): launch the interactive interpreter bare, inside
a try block with no `check`; only an exception from the invocation itself
(not the session's exit status) is a failure. -/
def launchStep (pyExe : String) (res : ProcResult) : List Event × Bool :=
  (Event.launchingMsg :: Event.invoked [pyExe] ::
      (if launchNoExc res then [] else [Event.launchFailedMsg]),
    launchNoExc res)

/-- The environment-creation command (line 98): the interpreter running the
script, the venv module, and the target directory. -/
def envCreateCmd (e : Env) : List String :=
  [e.sysExecutable, "-m", "venv", ospJoin e.sep (venv_dir e.scriptDir)]

/-- The rendered pip path of the new environment. -/
def envPipExe (e : Env) : String := ospJoin e.sep (pip_path e.scriptDir e.isWindows)

/-- The rendered python path of the new environment. -/
def envPyExe (e : Env) : String := ospJoin e.sep (python_path e.scriptDir e.isWindows)

/-- Steps 3-8 (lines 96-209): creation, pip upgrade, package installs,
smoke test, interactive launch and post-run guidance, with the fail-fast
exits of the source. -/
def afterPurge (e : Env) (dirExists : Bool) : List Event × Nat :=
  let s3 := createStep (envCreateCmd e) dirExists e.venvCreate
  if !s3.2 then (s3.1, 1) else
  let pipExe := envPipExe e
  let pyExe := envPyExe e
  let s4 := upgradeStep pipExe e.pipUpgrade
  if !s4.2 then (s3.1 ++ s4.1, 1) else
  let s5 := installLoop pipExe e.install packages_to_install
  if !s5.2 then (s3.1 ++ s4.1 ++ s5.1, 1) else
  let s6 := testStep pyExe e.testRun
  if !s6.2 then (s3.1 ++ s4.1 ++ s5.1 ++ Event.allInstalledMsg :: s6.1, 1) else
  let s7 := launchStep pyExe e.interactive
  if !s7.2 then (s3.1 ++ s4.1 ++ s5.1 ++ Event.allInstalledMsg :: s6.1 ++ s7.1, 1) else
  (s3.1 ++ s4.1 ++ s5.1 ++ Event.allInstalledMsg :: s6.1 ++ s7.1
      ++ [Event.exitedMsg, Event.activateHint (activate_path e.scriptDir e.isWindows)], 0)

/-- Steps 2-8: the sequencer after teardown. -/
def mainAfterTeardown (e : Env) (dirExists : Bool) : List Event × Nat :=
  let r := afterPurge e dirExists
  (purgeStep e.systemPip e.cachePurge ++ r.1, r.2)

/-- The whole `main` (lines 55-209): teardown, then the remaining sequence.
Result: the full console trace and the process exit code. -/
def main (w : World) : List Event × Nat :=
  match teardownStep w.venvExists w.rmtreeRaises with
  | (evs1, some c, _) => (evs1, c)
  | (evs1, none, dirExists) =>
      let r := mainAfterTeardown w.env dirExists
      (evs1 ++ r.1, r.2)

/-- The packages whose installation `main` attempted, in trace order. -/
def installEvents : List Event → List String
  | [] => []
  | Event.installingPkg p :: t => p :: installEvents t
  | _ :: t => installEvents t

/-- The error lines each fatal path prints just before sys.exit(1). -/
def isErrorMsg : Event → Bool
  | Event.removeErrorMsg => true
  | Event.createFailedMsg => true
  | Event.upgradeFailedMsg => true
  | Event.installFailedMsg _ => true
  | Event.testFailedMsg => true
  | Event.launchFailedMsg => true
  | _ => false

/-- Success of every fatal step: teardown does not abort, creation, the pip
upgrade, every install and the smoke test succeed, and the interactive
launch does not raise. The cache-purge outcome is absent by design. -/
def allFatalOk (w : World) : Bool :=
  (!w.venvExists || !w.rmtreeRaises) && procOk w.env.venvCreate
    && procOk w.env.pipUpgrade
    && packages_to_install.all (fun p => procOk (w.env.install p))
    && procOk w.env.testRun && launchNoExc w.env.interactive

/-- A fully successful concrete world, used to instantiate theorems. -/
def okEnv : Env :=
  ⟨"python3", "/", ["home", "user"], false, some "pip",
    ProcResult.exited 0 "" "", ProcResult.exited 0 "" "",
    ProcResult.exited 0 "" "", fun _ => ProcResult.exited 0 "" "",
    ProcResult.exited 0 "" "", ProcResult.exited 0 "" ""⟩

/-- The fully successful world. -/
def okWorld : World := ⟨false, false, okEnv⟩

/-- A world whose cache-purge child runs but exits non-zero; every other
external action succeeds. -/
def worldPurgeNonzero : World :=
  ⟨false, false,
    ⟨"python3", "/", ["home", "user"], false, some "pip",
      ProcResult.exited 1 "" "", ProcResult.exited 0 "" "",
      ProcResult.exited 0 "" "", fun _ => ProcResult.exited 0 "" "",
      ProcResult.exited 0 "" "", ProcResult.exited 0 "" ""⟩⟩

/-- A world with no pip executable on the search path. -/
def worldPipMissing : World :=
  ⟨false, false,
    ⟨"python3", "/", ["home", "user"], false, none,
      ProcResult.exited 0 "" "", ProcResult.exited 0 "" "",
      ProcResult.exited 0 "" "", fun _ => ProcResult.exited 0 "" "",
      ProcResult.exited 0 "" "", ProcResult.exited 0 "" ""⟩⟩

/-- A world whose second package install fails and the rest succeed. -/
def worldInstallFail : World :=
  ⟨false, false,
    ⟨"python3", "/", ["home", "user"], false, some "pip",
      ProcResult.exited 0 "" "", ProcResult.exited 0 "" "",
      ProcResult.exited 0 "" "",
      fun p => if p = "qiskit-aer" then ProcResult.exited 1 "" ""
               else ProcResult.exited 0 "" "",
      ProcResult.exited 0 "" "", ProcResult.exited 0 "" ""⟩⟩

/-- A world whose pip self-upgrade fails. -/
def worldUpgradeFail : World :=
  ⟨false, false,
    ⟨"python3", "/", ["home", "user"], false, some "pip",
      ProcResult.exited 0 "" "", ProcResult.exited 0 "" "",
      ProcResult.exited 1 "" "", fun _ => ProcResult.exited 0 "" "",
      ProcResult.exited 0 "" "", ProcResult.exited 0 "" ""⟩⟩

/-- A world whose interactive session runs and exits with status 3. -/
def worldLaunchNonzero : World :=
  ⟨false, false,
    ⟨"python3", "/", ["home", "user"], false, some "pip",
      ProcResult.exited 0 "" "", ProcResult.exited 0 "" "",
      ProcResult.exited 0 "" "", fun _ => ProcResult.exited 0 "" "",
      ProcResult.exited 0 "" "", ProcResult.exited 3 "" ""⟩⟩

/-- Classifier for the events teardown can emit. -/
def inTeardown : Event → Bool
  | Event.removingOld => true
  | Event.removedOld => true
  | Event.removeErrorMsg => true
  | Event.skipRemovalMsg => true
  | _ => false

/-- Classifier for the events the cache-purge step can emit. -/
def inPurge : Event → Bool
  | Event.purgeAttemptMsg => true
  | Event.invoked _ => true
  | Event.runner _ => true
  | Event.purgeSuccessMsg => true
  | Event.purgeFailWarn => true
  | Event.pipMissingWarn => true
  | _ => false

/-- Classifier for the events environment creation can emit. -/
def inCreate : Event → Bool
  | Event.creatingEnv _ => true
  | Event.invoked _ => true
  | Event.runner _ => true
  | Event.createdMsg => true
  | Event.createFailedMsg => true
  | _ => false

/-- Classifier for the events the pip upgrade can emit. -/
def inUpgrade : Event → Bool
  | Event.upgradingPipMsg => true
  | Event.invoked _ => true
  | Event.runner _ => true
  | Event.upgradedMsg => true
  | Event.upgradeFailedMsg => true
  | _ => false

/-- Classifier for the events the install loop can emit. -/
def inInstall : Event → Bool
  | Event.installingPkg _ => true
  | Event.invoked _ => true
  | Event.runner _ => true
  | Event.installedMsg _ => true
  | Event.installFailedMsg _ => true
  | _ => false

/-- Classifier for the events the smoke-test step can emit. -/
def inTest : Event → Bool
  | Event.runningTestMsg => true
  | Event.invoked _ => true
  | Event.runner _ => true
  | Event.testOkMsg => true
  | Event.testFailedMsg => true
  | _ => false

/-- Classifier for the events the interactive launch can emit. -/
def inLaunch : Event → Bool
  | Event.launchingMsg => true
  | Event.invoked _ => true
  | Event.launchFailedMsg => true
  | _ => false

theorem run_command_fst_check (c : List String) (cap : Bool) (res : ProcResult) :
    (run_command c true cap res).1 = procOk res := by
  cases res with
  | exited code out err =>
      by_cases h : code = 0 <;>
        simp [run_command, subprocessRun, procOk, h]
  | notFound => rfl
  | raised m => rfl

theorem run_command_fst_nocheck (c : List String) (cap : Bool) (res : ProcResult) :
    (run_command c false cap res).1 = launchNoExc res := by
  cases res <;> simp [run_command, subprocessRun, launchNoExc]

theorem createStep_snd (cmd : List String) (d : Bool) (res : ProcResult) :
    (createStep cmd d res).2 = procOk res := by
  simp [createStep, run_command_fst_check]

theorem upgradeStep_snd (p : String) (res : ProcResult) :
    (upgradeStep p res).2 = procOk res := by
  simp [upgradeStep, run_command_fst_check]

theorem testStep_snd (p : String) (res : ProcResult) :
    (testStep p res).2 = procOk res := by
  simp [testStep, run_command_fst_check]

theorem launchStep_snd (p : String) (res : ProcResult) :
    (launchStep p res).2 = launchNoExc res := rfl

theorem installLoop_snd (p : String) (inst : String → ProcResult) (l : List String) :
    (installLoop p inst l).2 = l.all (fun q => procOk (inst q)) := by
  induction l with
  | nil => rfl
  | cons pkg rest ih =>
      simp only [installLoop, run_command_fst_check, List.all_cons]
      cases h : procOk (inst pkg) <;> simp [h, ih]

theorem seq_exit_shape {α : Type} (A B C D E F : α) (b3 b4 b5 b6 b7 : Bool) :
    (if !b3 then (A, 1) else if !b4 then (B, 1) else if !b5 then (C, 1)
        else if !b6 then (D, 1) else if !b7 then (E, 1) else (F, 0)).2 =
      if b3 && b4 && b5 && b6 && b7 then 0 else 1 := by
  cases b3 <;> cases b4 <;> cases b5 <;> cases b6 <;> cases b7 <;> simp

theorem afterPurge_snd (e : Env) (d : Bool) :
    (afterPurge e d).2 =
      if procOk e.venvCreate && procOk e.pipUpgrade
          && packages_to_install.all (fun p => procOk (e.install p))
          && procOk e.testRun && launchNoExc e.interactive then 0 else 1 := by
  simp only [afterPurge, createStep_snd, upgradeStep_snd, installLoop_snd,
    testStep_snd, launchStep_snd]
  exact seq_exit_shape _ _ _ _ _ _ _ _ _ _ _

theorem main_exit (w : World) :
    (main w).2 = if allFatalOk w then 0 else 1 := by
  obtain ⟨ve, rr, e⟩ := w
  cases ve <;> cases rr <;>
    simp [main, teardownStep, mainAfterTeardown, allFatalOk, afterPurge_snd,
      Bool.and_assoc]

theorem main_trace_nonfatal (w : World)
    (h : (w.venvExists && w.rmtreeRaises) = false) :
    (main w).1 = (teardownStep w.venvExists w.rmtreeRaises).1
      ++ (purgeStep w.env.systemPip w.env.cachePurge
          ++ (afterPurge w.env false).1) := by
  obtain ⟨ve, rr, e⟩ := w
  cases ve <;> cases rr <;>
    simp_all [main, teardownStep, mainAfterTeardown]

theorem all_map_runner (f : Event → Bool) (h : ∀ m, f (Event.runner m) = true)
    (l : List Msg) : (l.map Event.runner).all f = true := by
  induction l with
  | nil => rfl
  | cons m t ih => simp [h, ih]

theorem not_mem_of_all {l : List Event} {f : Event → Bool}
    (hall : l.all f = true) {ev : Event} (hev : f ev = false) : ev ∉ l := by
  intro h
  have := List.all_eq_true.mp hall ev h
  rw [hev] at this
  exact Bool.false_ne_true this

theorem teardownStep_all (ve rr : Bool) :
    ((teardownStep ve rr).1).all inTeardown = true := by
  cases ve <;> cases rr <;> rfl

theorem purgeStep_all (sp : Option String) (cp : ProcResult) :
    (purgeStep sp cp).all inPurge = true := by
  cases sp with
  | none => rfl
  | some p =>
      have hr := all_map_runner inPurge (fun m => rfl)
        (run_command [p, "cache", "purge"] false false cp).2
      cases h : (run_command [p, "cache", "purge"] false false cp).1 <;>
        simp [purgeStep, h, hr, inPurge]

theorem createStep_all (cmd : List String) (d : Bool) (res : ProcResult) :
    ((createStep cmd d res).1).all inCreate = true := by
  have hr := all_map_runner inCreate (fun m => rfl) (run_command cmd true true res).2
  cases h : (run_command cmd true true res).1 <;>
    simp [createStep, h, hr, inCreate]

theorem upgradeStep_all (p : String) (res : ProcResult) :
    ((upgradeStep p res).1).all inUpgrade = true := by
  have hr := all_map_runner inUpgrade (fun m => rfl)
    (run_command [p, "install", "--upgrade", "pip"] true true res).2
  cases h : (run_command [p, "install", "--upgrade", "pip"] true true res).1 <;>
    simp [upgradeStep, h, hr, inUpgrade]

theorem installLoop_all (p : String) (inst : String → ProcResult) (l : List String) :
    ((installLoop p inst l).1).all inInstall = true := by
  induction l with
  | nil => rfl
  | cons a t ih =>
      have hr := all_map_runner inInstall (fun m => rfl)
        (run_command (installCmd p a) true true (inst a)).2
      cases h : (run_command (installCmd p a) true true (inst a)).1 <;>
        simp [installLoop, h, hr, ih, inInstall]

theorem testStep_all (p : String) (res : ProcResult) :
    ((testStep p res).1).all inTest = true := by
  have hr := all_map_runner inTest (fun m => rfl)
    (run_command [p, "-c", qiskit_test_script] true false res).2
  cases h : (run_command [p, "-c", qiskit_test_script] true false res).1 <;>
    simp [testStep, h, hr, inTest]

theorem launchStep_all (p : String) (res : ProcResult) :
    ((launchStep p res).1).all inLaunch = true := by
  cases h : launchNoExc res <;> simp [launchStep, h, inLaunch]

theorem installEvents_append (a b : List Event) :
    installEvents (a ++ b) = installEvents a ++ installEvents b := by
  induction a with
  | nil => rfl
  | cons ev t ih => cases ev <;> simp [installEvents, ih]

theorem installEvents_map_runner (l : List Msg) :
    installEvents (l.map Event.runner) = [] := by
  induction l <;> simp_all [installEvents]

theorem installEvents_allInstalled_cons (l : List Event) :
    installEvents (Event.allInstalledMsg :: l) = installEvents l := rfl

theorem installEvents_final (p : FsPath) :
    installEvents [Event.exitedMsg, Event.activateHint p] = [] := rfl

theorem installEvents_eq_nil {l : List Event}
    (h : ∀ p, Event.installingPkg p ∉ l) : installEvents l = [] := by
  induction l with
  | nil => rfl
  | cons ev t ih =>
      have ht : ∀ p, Event.installingPkg p ∉ t :=
        fun p hp => h p (List.mem_cons_of_mem _ hp)
      cases ev
      case installingPkg p => exact absurd (List.mem_cons_self _ _) (h p)
      all_goals simp [installEvents, ih ht]

theorem afterPurge_mem {e : Env} {d : Bool} {ev : Event}
    (h : ev ∈ (afterPurge e d).1) :
    ev ∈ (createStep (envCreateCmd e) d e.venvCreate).1
    ∨ ev ∈ (upgradeStep (envPipExe e) e.pipUpgrade).1
    ∨ ev ∈ (installLoop (envPipExe e) e.install packages_to_install).1
    ∨ ev = Event.allInstalledMsg
    ∨ ev ∈ (testStep (envPyExe e) e.testRun).1
    ∨ ev ∈ (launchStep (envPyExe e) e.interactive).1
    ∨ ev = Event.exitedMsg
    ∨ ev = Event.activateHint (activate_path e.scriptDir e.isWindows) := by
  simp only [afterPurge] at h
  split_ifs at h <;> simp at h <;> tauto

theorem afterPurge_create_fail (e : Env) (d : Bool)
    (hC : procOk e.venvCreate = false) :
    (afterPurge e d).1 = (createStep (envCreateCmd e) d e.venvCreate).1 := by
  simp [afterPurge, createStep_snd, hC]

theorem afterPurge_upgrade_fail (e : Env) (d : Bool)
    (hC : procOk e.venvCreate = true) (hU : procOk e.pipUpgrade = false) :
    (afterPurge e d).1 = (createStep (envCreateCmd e) d e.venvCreate).1
      ++ (upgradeStep (envPipExe e) e.pipUpgrade).1 := by
  simp [afterPurge, createStep_snd, upgradeStep_snd, hC, hU]

theorem afterPurge_install_fail (e : Env) (d : Bool)
    (hC : procOk e.venvCreate = true) (hU : procOk e.pipUpgrade = true)
    (hI : packages_to_install.all (fun q => procOk (e.install q)) = false) :
    (afterPurge e d).1 = (createStep (envCreateCmd e) d e.venvCreate).1
      ++ (upgradeStep (envPipExe e) e.pipUpgrade).1
      ++ (installLoop (envPipExe e) e.install packages_to_install).1 := by
  simp [afterPurge, createStep_snd, upgradeStep_snd, installLoop_snd, hC, hU, hI]

theorem afterPurge_test_fail (e : Env) (d : Bool)
    (hC : procOk e.venvCreate = true) (hU : procOk e.pipUpgrade = true)
    (hI : packages_to_install.all (fun q => procOk (e.install q)) = true)
    (hV : procOk e.testRun = false) :
    (afterPurge e d).1 = (createStep (envCreateCmd e) d e.venvCreate).1
      ++ (upgradeStep (envPipExe e) e.pipUpgrade).1
      ++ (installLoop (envPipExe e) e.install packages_to_install).1
      ++ Event.allInstalledMsg :: (testStep (envPyExe e) e.testRun).1 := by
  simp [afterPurge, createStep_snd, upgradeStep_snd, installLoop_snd,
    testStep_snd, hC, hU, hI, hV]

theorem afterPurge_launch_fail (e : Env) (d : Bool)
    (hC : procOk e.venvCreate = true) (hU : procOk e.pipUpgrade = true)
    (hI : packages_to_install.all (fun q => procOk (e.install q)) = true)
    (hV : procOk e.testRun = true) (hL : launchNoExc e.interactive = false) :
    (afterPurge e d).1 = (createStep (envCreateCmd e) d e.venvCreate).1
      ++ (upgradeStep (envPipExe e) e.pipUpgrade).1
      ++ (installLoop (envPipExe e) e.install packages_to_install).1
      ++ Event.allInstalledMsg :: (testStep (envPyExe e) e.testRun).1
      ++ (launchStep (envPyExe e) e.interactive).1 := by
  simp [afterPurge, createStep_snd, upgradeStep_snd, installLoop_snd,
    testStep_snd, launchStep_snd, hC, hU, hI, hV, hL]

theorem afterPurge_success (e : Env) (d : Bool)
    (hC : procOk e.venvCreate = true) (hU : procOk e.pipUpgrade = true)
    (hI : packages_to_install.all (fun q => procOk (e.install q)) = true)
    (hV : procOk e.testRun = true) (hL : launchNoExc e.interactive = true) :
    (afterPurge e d).1 = (createStep (envCreateCmd e) d e.venvCreate).1
      ++ (upgradeStep (envPipExe e) e.pipUpgrade).1
      ++ (installLoop (envPipExe e) e.install packages_to_install).1
      ++ Event.allInstalledMsg :: (testStep (envPyExe e) e.testRun).1
      ++ (launchStep (envPyExe e) e.interactive).1
      ++ [Event.exitedMsg, Event.activateHint (activate_path e.scriptDir e.isWindows)] := by
  simp [afterPurge, createStep_snd, upgradeStep_snd, installLoop_snd,
    testStep_snd, launchStep_snd, hC, hU, hI, hV, hL]

theorem creatingEnv_mem_createStep {cmd : List String} {d : Bool}
    {res : ProcResult} : Event.creatingEnv d ∈ (createStep cmd d res).1 := by
  simp [createStep]

theorem creatingEnv_eq_of_mem_createStep {cmd : List String} {d b : Bool}
    {res : ProcResult} (h : Event.creatingEnv b ∈ (createStep cmd d res).1) :
    b = d := by
  cases hr : (run_command cmd true true res).1 <;>
    simp [createStep, hr] at h <;> exact h

theorem creatingEnv_mem_afterPurge (e : Env) (d : Bool) :
    Event.creatingEnv d ∈ (afterPurge e d).1 := by
  simp only [afterPurge]
  split_ifs <;> simp [List.mem_append, creatingEnv_mem_createStep]

theorem creatingEnv_eq_of_mem_afterPurge {e : Env} {d b : Bool}
    (h : Event.creatingEnv b ∈ (afterPurge e d).1) : b = d := by
  rcases afterPurge_mem h with h | h | h | h | h | h | h | h
  · exact creatingEnv_eq_of_mem_createStep h
  · exact absurd h (not_mem_of_all (upgradeStep_all _ _) rfl)
  · exact absurd h (not_mem_of_all (installLoop_all _ _ _) rfl)
  · simp at h
  · exact absurd h (not_mem_of_all (testStep_all _ _) rfl)
  · exact absurd h (not_mem_of_all (launchStep_all _ _) rfl)
  · simp at h
  · simp at h

theorem createStep_fail_mem {cmd : List String} {d : Bool} {res : ProcResult}
    (h : procOk res = false) :
    Event.createFailedMsg ∈ (createStep cmd d res).1 := by
  simp [createStep, run_command_fst_check, h]

theorem upgradeStep_fail_mem {p : String} {res : ProcResult}
    (h : procOk res = false) :
    Event.upgradeFailedMsg ∈ (upgradeStep p res).1 := by
  simp [upgradeStep, run_command_fst_check, h]

theorem testStep_fail_mem {p : String} {res : ProcResult}
    (h : procOk res = false) :
    Event.testFailedMsg ∈ (testStep p res).1 := by
  simp [testStep, run_command_fst_check, h]

theorem launchStep_fail_mem {p : String} {res : ProcResult}
    (h : launchNoExc res = false) :
    Event.launchFailedMsg ∈ (launchStep p res).1 := by
  simp [launchStep, h]

theorem installLoop_fail_exists {p : String} {inst : String → ProcResult}
    {l : List String} (h : l.all (fun q => procOk (inst q)) = false) :
    ∃ pkg, Event.installFailedMsg pkg ∈ (installLoop p inst l).1 := by
  induction l with
  | nil => simp at h
  | cons a t ih =>
      cases ha : procOk (inst a) with
      | false =>
          exact ⟨a, by simp [installLoop, run_command_fst_check, ha]⟩
      | true =>
          have ht : t.all (fun q => procOk (inst q)) = false := by
            simpa [ha] using h
          obtain ⟨pkg, hm⟩ := ih ht
          exact ⟨pkg, by simp [installLoop, run_command_fst_check, ha, hm]⟩

theorem installLoop_ok (p : String) (inst : String → ProcResult) :
    ∀ l : List String, (∀ q ∈ l, procOk (inst q) = true) →
      installEvents (installLoop p inst l).1 = l
      ∧ ∀ q ∈ l, Event.invoked (installCmd p q) ∈ (installLoop p inst l).1 := by
  intro l
  induction l with
  | nil => intro _; exact ⟨rfl, by simp⟩
  | cons a t ih =>
      intro hall
      have ha : procOk (inst a) = true := hall a (List.mem_cons_self _ _)
      have ht := ih (fun q hq => hall q (List.mem_cons_of_mem _ hq))
      constructor
      · simp [installLoop, run_command_fst_check, ha, installEvents,
          installEvents_append, installEvents_map_runner, ht.1]
      · intro q hq
        rcases List.mem_cons.mp hq with rfl | hq
        · simp [installLoop, run_command_fst_check, ha]
        · have := ht.2 q hq
          simp [installLoop, run_command_fst_check, ha, this]

theorem installLoop_first_fail (p : String) (inst : String → ProcResult)
    (pkg : String) :
    ∀ l₁ l₂ : List String, (∀ q ∈ l₁, procOk (inst q) = true) →
      procOk (inst pkg) = false →
      installEvents (installLoop p inst (l₁ ++ pkg :: l₂)).1 = l₁ ++ [pkg]
      ∧ Event.installFailedMsg pkg ∈ (installLoop p inst (l₁ ++ pkg :: l₂)).1 := by
  intro l₁
  induction l₁ with
  | nil =>
      intro l₂ _ hf
      constructor
      · simp [installLoop, run_command_fst_check, hf, installEvents,
          installEvents_append, installEvents_map_runner]
      · simp [installLoop, run_command_fst_check, hf]
  | cons a t ih =>
      intro l₂ hall hf
      have ha : procOk (inst a) = true := hall a (List.mem_cons_self _ _)
      have ht := ih l₂ (fun q hq => hall q (List.mem_cons_of_mem _ hq)) hf
      constructor
      · simp [installLoop, run_command_fst_check, ha, installEvents,
          installEvents_append, installEvents_map_runner, ht.1]
      · simp [installLoop, run_command_fst_check, ha, ht.2]

theorem purgeStep_exited_no_warn (sp : Option String) (c : Int) (o er : String) :
    Event.purgeFailWarn ∉ purgeStep sp (ProcResult.exited c o er) := by
  cases sp <;> simp [purgeStep, run_command, subprocessRun, echoMsgs]

theorem purgeStep_exited_success (p : String) (c : Int) (o er : String) :
    Event.purgeSuccessMsg ∈ purgeStep (some p) (ProcResult.exited c o er) := by
  simp [purgeStep, run_command, subprocessRun, echoMsgs]

theorem purgeStep_exc_warn (p : String) {cp : ProcResult}
    (h : launchNoExc cp = false) :
    Event.purgeFailWarn ∈ purgeStep (some p) cp := by
  cases cp <;> simp_all [purgeStep, run_command, subprocessRun, launchNoExc]

theorem purgeStep_missing_warn (cp : ProcResult) :
    Event.pipMissingWarn ∈ purgeStep none cp := by
  simp [purgeStep]

theorem purgeFailWarn_not_mem_afterPurge (e : Env) (d : Bool) :
    Event.purgeFailWarn ∉ (afterPurge e d).1 := by
  intro h
  rcases afterPurge_mem h with h | h | h | h | h | h | h | h
  · exact absurd h (not_mem_of_all (createStep_all _ _ _) rfl)
  · exact absurd h (not_mem_of_all (upgradeStep_all _ _) rfl)
  · exact absurd h (not_mem_of_all (installLoop_all _ _ _) rfl)
  · simp at h
  · exact absurd h (not_mem_of_all (testStep_all _ _) rfl)
  · exact absurd h (not_mem_of_all (launchStep_all _ _) rfl)
  · simp at h
  · simp at h

/-- C1: for an invocation in which the child process is started and runs to
completion, `run_command` returns True exactly when the exit code is 0 or
the check flag is False, and so returns False when check is True and the
exit code is non-zero. -/
theorem claim_c1_run_command_bool (command : List String)
    (check capture_output : Bool) (code : Int) (out err : String) :
    (run_command command check capture_output
        (ProcResult.exited code out err)).1 = true
      ↔ (code = 0 ∨ check = false) := by
  by_cases h : code = 0 <;> cases check <;>
    simp [run_command, subprocessRun, h]

/-- C4: `run_command` never propagates an exception: whenever the subprocess
invocation raises, the exception is caught, at least one diagnostic line is
printed — the distinct command-not-found line in the FileNotFoundError
case — and False is returned instead of raising. -/
theorem claim_c4_never_raises (command : List String)
    (check capture_output : Bool) (res : ProcResult) (exc : RunExc)
    (h : subprocessRun check res = Except.error exc) :
    (run_command command check capture_output res).1 = false
    ∧ (run_command command check capture_output res).2 ≠ []
    ∧ (exc = RunExc.fileNotFound →
        (run_command command check capture_output res).2 = [Msg.commandNotFound]) := by
  rcases exc with ⟨c, o, er⟩ | _ | m <;> simp [run_command, h]

/-- Witness for C4: a concrete FileNotFoundError invocation. -/
theorem claim_c4_witness :
    (run_command ["pip3"] true true ProcResult.notFound).1 = false
    ∧ (run_command ["pip3"] true true ProcResult.notFound).2 ≠ []
    ∧ (RunExc.fileNotFound = RunExc.fileNotFound →
        (run_command ["pip3"] true true ProcResult.notFound).2
          = [Msg.commandNotFound]) :=
  claim_c4_never_raises ["pip3"] true true ProcResult.notFound
    RunExc.fileNotFound rfl

/-- C7: if removal of the existing environment directory raises OSError, the
process prints the removal error and exits 1 at once, and no external
command (cache purge, creation, upgrade or install) is ever invoked. -/
theorem claim_c7_teardown_error_aborts (w : World)
    (hv : w.venvExists = true) (hr : w.rmtreeRaises = true) :
    (main w).1 = [Event.removingOld, Event.removeErrorMsg]
    ∧ (main w).2 = 1
    ∧ ∀ cmd, Event.invoked cmd ∉ (main w).1 := by
  obtain ⟨ve, rr, e⟩ := w
  subst hv
  subst hr
  exact ⟨rfl, rfl, fun cmd h => by simp [main, teardownStep] at h⟩

/-- Witness for C7: a concrete world whose removal raises. -/
theorem claim_c7_witness :
    (main ⟨true, true, okEnv⟩).2 = 1
    ∧ Event.invoked ["pip", "cache", "purge"] ∉ (main ⟨true, true, okEnv⟩).1 :=
  ⟨(claim_c7_teardown_error_aborts ⟨true, true, okEnv⟩ rfl rfl).2.1,
   (claim_c7_teardown_error_aborts ⟨true, true, okEnv⟩ rfl rfl).2.2 _⟩

/-- C8: the internal executable paths come from a single platform branch —
Scripts/pip.exe and Scripts/python.exe on the Windows family, bin/pip and
bin/python otherwise — and a failing pip self-upgrade exits the run with a
non-zero code. -/
theorem claim_c8_paths_and_upgrade_fatal (sd : FsPath) (w : World) :
    pip_path sd true = venv_dir sd ++ ["Scripts", "pip.exe"]
    ∧ python_path sd true = venv_dir sd ++ ["Scripts", "python.exe"]
    ∧ pip_path sd false = venv_dir sd ++ ["bin", "pip"]
    ∧ python_path sd false = venv_dir sd ++ ["bin", "python"]
    ∧ (procOk w.env.pipUpgrade = false → (main w).2 = 1) := by
  refine ⟨rfl, rfl, rfl, rfl, fun hU => ?_⟩
  rw [main_exit]
  have hfo : allFatalOk w = false := by simp [allFatalOk, hU]
  simp [hfo]

/-- Witness for C8: a concrete failing pip self-upgrade. -/
theorem claim_c8_witness : (main worldUpgradeFail).2 = 1 :=
  (claim_c8_paths_and_upgrade_fatal ["home", "user"] worldUpgradeFail).2.2.2.2
    (by decide)

/-- C5: teardown always precedes creation — whenever creation is invoked,
the environment directory is absent at that moment; and when the directory
is absent at the start, removal is skipped and the subsequent steps proceed
identically (same trace after the teardown lines, same exit code) to a run
whose removal succeeded. -/
theorem claim_c5_teardown_before_creation (w : World) (b r : Bool) (e : Env) :
    (Event.creatingEnv b ∈ (main w).1 → b = false)
    ∧ (main ⟨true, false, e⟩).1
        = [Event.removingOld, Event.removedOld] ++ (mainAfterTeardown e false).1
    ∧ (main ⟨false, r, e⟩).1
        = [Event.skipRemovalMsg] ++ (mainAfterTeardown e false).1
    ∧ (main ⟨true, false, e⟩).2 = (main ⟨false, r, e⟩).2 := by
  refine ⟨?_, rfl, rfl, rfl⟩
  intro h
  obtain ⟨ve, rr, e'⟩ := w
  cases ve with
  | false =>
      have h' : Event.creatingEnv b
          ∈ purgeStep e'.systemPip e'.cachePurge ++ (afterPurge e' false).1 := by
        simpa [main, teardownStep, mainAfterTeardown] using h
      rcases List.mem_append.mp h' with h1 | h1
      · exact absurd h1 (not_mem_of_all (purgeStep_all _ _) rfl)
      · exact creatingEnv_eq_of_mem_afterPurge h1
  | true =>
      cases rr with
      | true => simp [main, teardownStep] at h
      | false =>
          have h' : Event.creatingEnv b
              ∈ purgeStep e'.systemPip e'.cachePurge ++ (afterPurge e' false).1 := by
            simpa [main, teardownStep, mainAfterTeardown] using h
          rcases List.mem_append.mp h' with h1 | h1
          · exact absurd h1 (not_mem_of_all (purgeStep_all _ _) rfl)
          · exact creatingEnv_eq_of_mem_afterPurge h1

/-- Witness for C5: in a concrete run, creation is invoked with the
directory absent, and the two start states agree afterwards. -/
theorem claim_c5_witness :
    false = false
    ∧ (main ⟨true, false, okEnv⟩).2 = (main ⟨false, false, okEnv⟩).2 :=
  ⟨(claim_c5_teardown_before_creation okWorld false false okEnv).1 (by decide),
   (claim_c5_teardown_before_creation okWorld false false okEnv).2.2.2⟩

/-- C2: installs are attempted strictly in list order; at the first failing
package the run prints that package's install error and exits 1, with no
later package ever attempted and the verification step never run. -/
theorem claim_c2_install_order_halt (w : World) (l₁ l₂ : List String)
    (pkg : String)
    (hT : (w.venvExists && w.rmtreeRaises) = false)
    (hC : procOk w.env.venvCreate = true)
    (hU : procOk w.env.pipUpgrade = true)
    (hsplit : packages_to_install = l₁ ++ pkg :: l₂)
    (hok : ∀ q ∈ l₁, procOk (w.env.install q) = true)
    (hfail : procOk (w.env.install pkg) = false) :
    (main w).2 = 1
    ∧ installEvents (main w).1 = l₁ ++ [pkg]
    ∧ Event.installFailedMsg pkg ∈ (main w).1
    ∧ Event.runningTestMsg ∉ (main w).1 := by
  have hI : packages_to_install.all (fun q => procOk (w.env.install q)) = false := by
    rw [hsplit]
    simp [List.all_append, hfail]
  have htr := main_trace_nonfatal w hT
  have hap := afterPurge_install_fail w.env false hC hU hI
  have hloop := installLoop_first_fail (envPipExe w.env) w.env.install pkg l₁ l₂
    hok hfail
  refine ⟨?_, ?_, ?_, ?_⟩
  · rw [main_exit]
    have hfo : allFatalOk w = false := by simp [allFatalOk, hI]
    simp [hfo]
  · rw [htr, hap, hsplit]
    simp [installEvents_append,
      installEvents_eq_nil (fun p => not_mem_of_all (teardownStep_all _ _) rfl),
      installEvents_eq_nil (fun p => not_mem_of_all (purgeStep_all _ _) rfl),
      installEvents_eq_nil (fun p => not_mem_of_all (createStep_all _ _ _) rfl),
      installEvents_eq_nil (fun p => not_mem_of_all (upgradeStep_all _ _) rfl),
      hloop.1]
  · rw [htr, hap, hsplit]
    simp [List.mem_append, hloop.2]
  · rw [htr, hap]
    intro h
    rcases List.mem_append.mp h with h1 | h1
    · exact absurd h1 (not_mem_of_all (teardownStep_all _ _) rfl)
    rcases List.mem_append.mp h1 with h2 | h2
    · exact absurd h2 (not_mem_of_all (purgeStep_all _ _) rfl)
    rcases List.mem_append.mp h2 with h3 | h3
    · rcases List.mem_append.mp h3 with h4 | h4
      · exact absurd h4 (not_mem_of_all (createStep_all _ _ _) rfl)
      · exact absurd h4 (not_mem_of_all (upgradeStep_all _ _) rfl)
    · exact absurd h3 (not_mem_of_all (installLoop_all _ _ _) rfl)

/-- Witness for C2: second package fails, first succeeds. -/
theorem claim_c2_witness :
    (main worldInstallFail).2 = 1
    ∧ Event.installFailedMsg "qiskit-aer" ∈ (main worldInstallFail).1
    ∧ Event.runningTestMsg ∉ (main worldInstallFail).1 :=
  ⟨(claim_c2_install_order_halt worldInstallFail ["qiskit"]
      ["qiskit-ibm-runtime", "qiskit-terra"] "qiskit-aer"
      (by decide) (by decide) (by decide) (by decide) (by decide) (by decide)).1,
   (claim_c2_install_order_halt worldInstallFail ["qiskit"]
      ["qiskit-ibm-runtime", "qiskit-terra"] "qiskit-aer"
      (by decide) (by decide) (by decide) (by decide) (by decide) (by decide)).2.2.1,
   (claim_c2_install_order_halt worldInstallFail ["qiskit"]
      ["qiskit-ibm-runtime", "qiskit-terra"] "qiskit-aer"
      (by decide) (by decide) (by decide) (by decide) (by decide) (by decide)).2.2.2⟩

/-- C3 counterexample: with pip present and the purge subcommand running but
exiting non-zero, the run prints the purge success line and never the
failure warning, refuting the claim that a non-zero purge exit is warned
about. -/
theorem claim_c3_counterexample :
    Event.purgeFailWarn ∉ (main worldPurgeNonzero).1
    ∧ Event.purgeSuccessMsg ∈ (main worldPurgeNonzero).1
    ∧ Event.creatingEnv false ∈ (main worldPurgeNonzero).1
    ∧ (main worldPurgeNonzero).2 = 0 := by decide

/-- C3 (amended): the cache-purge step never aborts the run — creation is
always reached when teardown does not abort; a missing pip yields a warning
and the run continues; a purge child that runs and exits (with any status)
is reported with the success line and never with the failure warning; the
failure warning is printed exactly when the purge invocation itself raises
an exception. -/
theorem claim_c3_purge_never_aborts (w : World)
    (hT : (w.venvExists && w.rmtreeRaises) = false) :
    Event.creatingEnv false ∈ (main w).1
    ∧ (w.env.systemPip = none → Event.pipMissingWarn ∈ (main w).1)
    ∧ (∀ code out err, w.env.cachePurge = ProcResult.exited code out err →
        Event.purgeFailWarn ∉ (main w).1
        ∧ ∀ p, w.env.systemPip = some p → Event.purgeSuccessMsg ∈ (main w).1)
    ∧ (∀ p, w.env.systemPip = some p → launchNoExc w.env.cachePurge = false →
        Event.purgeFailWarn ∈ (main w).1) := by
  have htr := main_trace_nonfatal w hT
  refine ⟨?_, ?_, ?_, ?_⟩
  · rw [htr]
    simp [List.mem_append, creatingEnv_mem_afterPurge w.env false]
  · intro hsp
    rw [htr, hsp]
    simp [List.mem_append, purgeStep_missing_warn]
  · intro code out err hcp
    constructor
    · rw [htr]
      intro h
      rcases List.mem_append.mp h with h1 | h1
      · exact absurd h1 (not_mem_of_all (teardownStep_all _ _) rfl)
      rcases List.mem_append.mp h1 with h2 | h2
      · rw [hcp] at h2
        exact purgeStep_exited_no_warn _ _ _ _ h2
      · exact purgeFailWarn_not_mem_afterPurge w.env false h2
    · intro p hsp
      rw [htr, hsp, hcp]
      simp [List.mem_append, purgeStep_exited_success]
  · intro p hsp hexc
    rw [htr, hsp]
    simp [List.mem_append, purgeStep_exc_warn p hexc]

/-- Witness for C3 (amended): with pip missing, the warning is printed and
the run still reaches environment creation. -/
theorem claim_c3_witness :
    Event.creatingEnv false ∈ (main worldPipMissing).1
    ∧ Event.pipMissingWarn ∈ (main worldPipMissing).1 :=
  ⟨(claim_c3_purge_never_aborts worldPipMissing (by decide)).1,
   (claim_c3_purge_never_aborts worldPipMissing (by decide)).2.1 rfl⟩

/-- C6: the process exit code is 0 exactly when every fatal step succeeds —
teardown, creation, pip self-upgrade, every package install, the smoke test
and the interactive launch — and whenever the run exits non-zero, a
descriptive error message for the failed step is in the printed trace. -/
theorem claim_c6_exit_code (w : World) :
    ((main w).2 = 0 ↔ allFatalOk w = true)
    ∧ ((main w).2 ≠ 0 → ∃ ev ∈ (main w).1, isErrorMsg ev = true) := by
  constructor
  · rw [main_exit]
    cases h : allFatalOk w <;> simp [h]
  · intro hne
    rw [main_exit] at hne
    have hfo : allFatalOk w = false := by
      cases h : allFatalOk w
      · rfl
      · rw [h] at hne
        simp at hne
    by_cases hT : (w.venvExists && w.rmtreeRaises) = true
    · obtain ⟨ve, rr, e⟩ := w
      simp only [Bool.and_eq_true] at hT
      obtain ⟨h1, h2⟩ := hT
      subst h1
      subst h2
      exact ⟨Event.removeErrorMsg, by simp [main, teardownStep], rfl⟩
    · have hT' : (w.venvExists && w.rmtreeRaises) = false := by
        cases h : (w.venvExists && w.rmtreeRaises)
        · rfl
        · exact absurd h hT
      have htr := main_trace_nonfatal w hT'
      have hTok : (!w.venvExists || !w.rmtreeRaises) = true := by
        cases hv : w.venvExists <;> cases hr : w.rmtreeRaises <;> simp_all
      have hrest : (procOk w.env.venvCreate && procOk w.env.pipUpgrade
          && packages_to_install.all (fun p => procOk (w.env.install p))
          && procOk w.env.testRun && launchNoExc w.env.interactive) = false := by
        rw [allFatalOk, hTok] at hfo
        simpa [Bool.and_assoc] using hfo
      cases hC : procOk w.env.venvCreate with
      | false =>
          refine ⟨Event.createFailedMsg, ?_, rfl⟩
          rw [htr, afterPurge_create_fail w.env false hC]
          simp [List.mem_append, createStep_fail_mem hC]
      | true =>
      cases hU : procOk w.env.pipUpgrade with
      | false =>
          refine ⟨Event.upgradeFailedMsg, ?_, rfl⟩
          rw [htr, afterPurge_upgrade_fail w.env false hC hU]
          simp [List.mem_append, upgradeStep_fail_mem hU]
      | true =>
      cases hI : packages_to_install.all (fun p => procOk (w.env.install p)) with
      | false =>
          obtain ⟨pkg, hm⟩ := @installLoop_fail_exists (envPipExe w.env)
            w.env.install packages_to_install hI
          refine ⟨Event.installFailedMsg pkg, ?_, rfl⟩
          rw [htr, afterPurge_install_fail w.env false hC hU hI]
          simp [List.mem_append, hm]
      | true =>
      cases hV : procOk w.env.testRun with
      | false =>
          refine ⟨Event.testFailedMsg, ?_, rfl⟩
          rw [htr, afterPurge_test_fail w.env false hC hU hI hV]
          simp [List.mem_append, testStep_fail_mem hV]
      | true =>
      cases hL : launchNoExc w.env.interactive with
      | false =>
          refine ⟨Event.launchFailedMsg, ?_, rfl⟩
          rw [htr, afterPurge_launch_fail w.env false hC hU hI hV hL]
          simp [List.mem_append, launchStep_fail_mem hL]
      | true =>
          rw [hC, hU, hI, hV, hL] at hrest
          simp at hrest

/-- Witness for C6: a run whose pip self-upgrade fails exits non-zero and
prints an error line. -/
theorem claim_c6_witness :
    ∃ ev ∈ (main worldUpgradeFail).1, isErrorMsg ev = true :=
  (claim_c6_exit_code worldUpgradeFail).2 (by decide)

/-- C9: when the interactive interpreter launches and the session runs to
completion — whatever its exit status — the run continues past it, prints
the session-exit line and the platform-appropriate reactivation guidance,
and the process exits 0. -/
theorem claim_c9_session_status_ignored (w : World) (code : Int)
    (out err : String)
    (hT : (w.venvExists && w.rmtreeRaises) = false)
    (hC : procOk w.env.venvCreate = true)
    (hU : procOk w.env.pipUpgrade = true)
    (hI : packages_to_install.all (fun q => procOk (w.env.install q)) = true)
    (hV : procOk w.env.testRun = true)
    (hInt : w.env.interactive = ProcResult.exited code out err) :
    (main w).2 = 0
    ∧ Event.exitedMsg ∈ (main w).1
    ∧ Event.activateHint (activate_path w.env.scriptDir w.env.isWindows)
        ∈ (main w).1 := by
  have hL : launchNoExc w.env.interactive = true := by rw [hInt]; rfl
  have hTok : (!w.venvExists || !w.rmtreeRaises) = true := by
    cases hv : w.venvExists <;> cases hr : w.rmtreeRaises <;> simp_all
  have hfo : allFatalOk w = true := by
    simp [allFatalOk, hTok, hC, hU, hI, hV, hL]
  refine ⟨?_, ?_, ?_⟩
  · rw [main_exit, hfo]
    rfl
  · rw [main_trace_nonfatal w hT, afterPurge_success w.env false hC hU hI hV hL]
    simp [List.mem_append]
  · rw [main_trace_nonfatal w hT, afterPurge_success w.env false hC hU hI hV hL]
    simp [List.mem_append]

/-- Witness for C9: the interactive session exits with status 3 and the
process still exits 0 with the guidance printed. -/
theorem claim_c9_witness :
    (main worldLaunchNonzero).2 = 0
    ∧ Event.exitedMsg ∈ (main worldLaunchNonzero).1 :=
  ⟨(claim_c9_session_status_ignored worldLaunchNonzero 3 "" ""
      (by decide) (by decide) (by decide) (by decide) (by decide) rfl).1,
   (claim_c9_session_status_ignored worldLaunchNonzero 3 "" ""
      (by decide) (by decide) (by decide) (by decide) (by decide) rfl).2.1⟩

/-- C10: the fixed package list is exactly the four qiskit names in that
order; each is installed with the bare package name (no version pin) via
the new environment's own pip; in a fully successful run the attempted
installs are exactly that list in order. -/
theorem claim_c10_fixed_package_list (w : World)
    (hT : (w.venvExists && w.rmtreeRaises) = false)
    (hC : procOk w.env.venvCreate = true)
    (hU : procOk w.env.pipUpgrade = true)
    (hok : ∀ q ∈ packages_to_install, procOk (w.env.install q) = true)
    (hV : procOk w.env.testRun = true)
    (hL : launchNoExc w.env.interactive = true) :
    packages_to_install = ["qiskit", "qiskit-aer", "qiskit-ibm-runtime",
      "qiskit-terra"]
    ∧ (∀ pipExe pkg, installCmd pipExe pkg = [pipExe, "install", pkg])
    ∧ installEvents (main w).1 = packages_to_install
    ∧ ∀ pkg ∈ packages_to_install,
        Event.invoked (installCmd (envPipExe w.env) pkg) ∈ (main w).1 := by
  have hI : packages_to_install.all (fun q => procOk (w.env.install q)) = true := by
    rw [List.all_eq_true]
    exact hok
  have hloop := installLoop_ok (envPipExe w.env) w.env.install
    packages_to_install hok
  have htr := main_trace_nonfatal w hT
  have hsu := afterPurge_success w.env false hC hU hI hV hL
  refine ⟨rfl, fun _ _ => rfl, ?_, ?_⟩
  · rw [htr, hsu]
    have h1 : installEvents (teardownStep w.venvExists w.rmtreeRaises).1 = [] :=
      installEvents_eq_nil (fun p => not_mem_of_all (teardownStep_all _ _) rfl)
    have h2 : installEvents (purgeStep w.env.systemPip w.env.cachePurge) = [] :=
      installEvents_eq_nil (fun p => not_mem_of_all (purgeStep_all _ _) rfl)
    have h3 : installEvents
        (createStep (envCreateCmd w.env) false w.env.venvCreate).1 = [] :=
      installEvents_eq_nil (fun p => not_mem_of_all (createStep_all _ _ _) rfl)
    have h4 : installEvents
        (upgradeStep (envPipExe w.env) w.env.pipUpgrade).1 = [] :=
      installEvents_eq_nil (fun p => not_mem_of_all (upgradeStep_all _ _) rfl)
    have h6 : installEvents (testStep (envPyExe w.env) w.env.testRun).1 = [] :=
      installEvents_eq_nil (fun p => not_mem_of_all (testStep_all _ _) rfl)
    have h7 : installEvents
        (launchStep (envPyExe w.env) w.env.interactive).1 = [] :=
      installEvents_eq_nil (fun p => not_mem_of_all (launchStep_all _ _) rfl)
    simp only [installEvents_append, installEvents_allInstalled_cons,
      installEvents_final, h1, h2, h3, h4, h6, h7, hloop.1]
    simp
  · intro pkg hpkg
    have hm := hloop.2 pkg hpkg
    rw [htr, hsu]
    simp [List.mem_append, hm]

/-- Witness for C10: the fully successful world attempts exactly the four
packages in order via the environment pip. -/
theorem claim_c10_witness :
    installEvents (main okWorld).1 = packages_to_install
    ∧ Event.invoked (installCmd (envPipExe okWorld.env) "qiskit")
        ∈ (main okWorld).1 :=
  ⟨(claim_c10_fixed_package_list okWorld (by decide) (by decide) (by decide)
      (by decide) (by decide) (by decide)).2.2.1,
   (claim_c10_fixed_package_list okWorld (by decide) (by decide) (by decide)
      (by decide) (by decide) (by decide)).2.2.2 "qiskit" (by decide)⟩

end Qisclick
